import Mathlib

/-!
Shallow embedding of `radar_script.py` (doomhaMwx/radar-image-saver).

The script fetches the latest RainViewer radar timestamp, fetches one radar
tile for a fixed lat/lon, plots it on a map and optionally saves a PNG.
HTTP responses, the parsed JSON metadata body, and the render-library failure
behaviour are passed in explicitly as data; everything else is translated
directly from the Python source.  Geographic coordinates (Python floats given
as exact decimal literals) are modelled as rationals, unix timestamps as
integers, logging as an accumulated list of printed lines.
-/

set_option autoImplicit false

/-- A parsed JSON value, as produced by `requests.Response.json()`. -/
inductive Json where
  | null
  | bool (b : Bool)
  | num (n : Int)
  | str (s : String)
  | arr (items : List Json)
  | obj (fields : List (String × Json))

/-- Python `d[k]` on a parsed JSON object: raises `KeyError` when the key is
absent and `TypeError` when the value is not an object. -/
def Json.getKey : Json → String → Except String Json
  | .obj fields, k =>
      match fields.lookup k with
      | some v => .ok v
      | none => .error ("KeyError: " ++ k)
  | _, k => .error ("TypeError: value is not subscriptable by key " ++ k)

/-- Python `xs[-1]` on a parsed JSON array: raises `IndexError` when the array
is empty and `TypeError` when the value is not an array. -/
def Json.getLast : Json → Except String Json
  | .arr items =>
      match items.getLast? with
      | some v => .ok v
      | none => .error "IndexError: list index out of range"
  | _ => .error "TypeError: value is not a list"

/-- An HTTP response as seen through the `requests` API: status code, the
`Content-Type` header (absent when the server did not send one) and the raw
body bytes. -/
structure HttpResponse where
  status_code : Nat
  content_type : Option String
  content : List Nat
deriving Repr, DecidableEq

/-- `requests.Response.raise_for_status()`: raises `HTTPError` exactly for
4xx and 5xx status codes. -/
def raise_for_status (status : Nat) : Except String Unit :=
  if 400 ≤ status ∧ status < 600 then
    .error ("HTTPError: " ++ toString status)
  else
    .ok ()

/-- A decoded RGBA bitmap.  The PIL decoder is an external library; the bitmap
is modelled abstractly as the bytes it was decoded from. -/
structure RGBAImage where
  source_bytes : List Nat
deriving Repr, DecidableEq

/-- `Image.open(BytesIO(content)).convert("RGBA")`, the external PIL decode,
modelled as total on the body bytes. -/
def decodeRGBA (content : List Nat) : RGBAImage :=
  ⟨content⟩

/-- `get_latest_timestamp` (radar_script.py lines 31-35): after
`raise_for_status`, returns `r.json()["radar"]["past"][-1]["time"]`.
Each subscript raises on a missing key / empty list, exactly as in Python;
the returned `time` field is an integer (a non-integer `time` raises, where
Python would propagate an ill-typed value that faults downstream). -/
def get_latest_timestamp (status : Nat) (body : Json) : Except String Int :=
  match raise_for_status status with
  | .error e => .error e
  | .ok _ =>
      match body.getKey "radar" with
      | .error e => .error e
      | .ok radar =>
          match radar.getKey "past" with
          | .error e => .error e
          | .ok past =>
              match past.getLast with
              | .error e => .error e
              | .ok last =>
                  match last.getKey "time" with
                  | .error e => .error e
                  | .ok (.num t) => .ok t
                  | .ok _ => .error "TypeError: time field is not an integer"

/-- Fractional decimal digits of `rest / den` (with `0 < rest < den`),
stopping when the remainder vanishes or the fuel runs out. -/
def fracDigits : Nat → Nat → Nat → String
  | 0, _, _ => ""
  | fuel + 1, rest, den =>
      let d := rest * 10 / den
      let r := rest * 10 % den
      toString d ++ (if r == 0 then "" else fracDigits fuel r den)

/-- Python `str()` of a float, for floats that are exact decimal values
(the configuration constants 15.7 and 121.7): integer part, a dot, and the
fractional digits (`"0"` when the value is integral, as in `str(15.0)`). -/
def pyFloatStr (q : ℚ) : String :=
  let sign := if q.num < 0 then "-" else ""
  let a := q.num.natAbs
  let ip := a / q.den
  let rest := a % q.den
  let frac := if rest == 0 then "0" else fracDigits 64 rest q.den
  sign ++ toString ip ++ "." ++ frac

/-- The tile URL built by `get_radar_tile_by_latlon` (lines 40-43), an
f-string over the request parameters. -/
def tileURL (timestamp : Int) (zoom : Nat) (lat lon : ℚ)
    (color tile_size smooth snow : Nat) : String :=
  s!"https://tilecache.rainviewer.com/v2/radar/{timestamp}/{tile_size}/{zoom}/{pyFloatStr lat}/{pyFloatStr lon}/{color}/{smooth}_{snow}.png"

/-- `get_radar_tile_by_latlon` (lines 38-50): prints the URL, and returns the
decoded RGBA image exactly when the status is 200 and the `Content-Type`
header starts with `image`; otherwise prints the status and returns `None`.
Result: the optional image and the printed lines. -/
def get_radar_tile_by_latlon (timestamp : Int) (zoom : Nat) (lat lon : ℚ)
    (color tile_size smooth snow : Nat) (r : HttpResponse) :
    Option RGBAImage × List String :=
  let url := tileURL timestamp zoom lat lon color tile_size smooth snow
  let st := r.status_code
  if r.status_code == 200 && (r.content_type.getD "").startsWith "image" then
    (some (decodeRGBA r.content), [s!"Fetching: {url}"])
  else
    (none, [s!"Fetching: {url}", s!"Failed to load tile. Status: {st}"])

/-- The geographic extent `[lon_min, lon_max, lat_min, lat_max]`. -/
structure MapExtent where
  lon_min : ℚ
  lon_max : ℚ
  lat_min : ℚ
  lat_max : ℚ
deriving Repr, DecidableEq

/-- `delta = 360 / (2 ** zoom)` (line 55). -/
def tileDelta (zoom : Nat) : ℚ :=
  360 / 2 ^ zoom

/-- The extent computed by `plot_tile_on_map` (lines 55-57):
`min/max = center ∓ delta/2` on each axis. -/
def mapExtent (lat lon : ℚ) (zoom : Nat) : MapExtent :=
  let delta := tileDelta zoom
  { lon_min := lon - delta / 2
    lon_max := lon + delta / 2
    lat_min := lat - delta / 2
    lat_max := lat + delta / 2 }

/-- A broken-down UTC time, as produced by `datetime.datetime.utcfromtimestamp`. -/
structure UtcTime where
  year : Int
  month : Nat
  day : Nat
  hour : Nat
  minute : Nat
  second : Nat
deriving Repr, DecidableEq

/-- Proleptic-Gregorian date from a count of days since 1970-01-01
(the civil-from-days algorithm, matching the CPython naive UTC conversion). -/
def civilFromDays (z0 : Int) : Int × Nat × Nat :=
  let z := z0 + 719468
  let era := z.fdiv 146097
  let doe := (z.fmod 146097).toNat
  let yoe := (doe - doe / 1460 + doe / 36524 - doe / 146096) / 365
  let doy := doe - (365 * yoe + yoe / 4 - yoe / 100)
  let mp := (5 * doy + 2) / 153
  let d := doy - (153 * mp + 2) / 5 + 1
  let m := if mp < 10 then mp + 3 else mp - 9
  ((yoe : Int) + era * 400 + (if m ≤ 2 then 1 else 0), m, d)

/-- `datetime.datetime.utcfromtimestamp(t)` (line 107): unix seconds to a
naive UTC calendar time (no leap seconds, floor division for negatives). -/
def utcfromtimestamp (t : Int) : UtcTime :=
  let days := t.fdiv 86400
  let sod := (t.fmod 86400).toNat
  let ymd := civilFromDays days
  { year := ymd.1
    month := ymd.2.1
    day := ymd.2.2
    hour := sod / 3600
    minute := sod % 3600 / 60
    second := sod % 60 }

/-- Decimal rendering of `n` left-padded with zeros to `width` digits. -/
def padNum (width : Nat) (n : Nat) : String :=
  let s := toString n
  String.mk (List.replicate (width - s.length) '0') ++ s

/-- The strftime pattern %Y%m%d_%H%M applied to `dt` (line 111): the
minute-precision UTC stamp
used in the output filename; seconds are dropped. -/
def strftimeYmdHM (u : UtcTime) : String :=
  padNum 4 u.year.toNat ++ padNum 2 u.month ++ padNum 2 u.day ++ "_" ++
    padNum 2 u.hour ++ padNum 2 u.minute

/-- The output filename radar_YYYYMMDD_HHMM_zZOOM.png
built by `plot_tile_on_map` (line 111). -/
def radarFilename (timestamp : Int) (zoom : Nat) : String :=
  "radar_" ++ strftimeYmdHM (utcfromtimestamp timestamp) ++ "_z" ++
    toString zoom ++ ".png"

/-- External failure behaviour of the matplotlib/cartopy calls inside
`plot_tile_on_map`: whether one of the drawing calls (lines 73-108) raises,
and whether `plt.savefig` (line 112) raises. -/
structure RenderEnv where
  renderFails : Bool
  savefigFails : Bool
deriving Repr, DecidableEq

/-- Observable outcome of one `plot_tile_on_map` call: the extent it computed,
whether a figure was created and whether it was closed again, the file saved,
the printed lines, and the exception propagated to the caller (if any). -/
structure PlotResult where
  extent : MapExtent
  figOpened : Bool
  figClosed : Bool
  saved : Option String
  log : List String
  exn : Option String
deriving Repr, DecidableEq

/-- `plot_tile_on_map` (lines 53-115): computes the extent, creates the
figure, draws (fallibly, per `env`), optionally saves (fallibly), and then —
only if nothing raised, since there is no `try/finally` — closes the figure
on line 115 before returning. -/
def plot_tile_on_map (env : RenderEnv) (img : RGBAImage) (lat lon : ℚ)
    (zoom : Nat) (timestamp : Int) (save : Bool) : PlotResult :=
  let e := mapExtent lat lon zoom
  let _ := img
  if env.renderFails then
    { extent := e, figOpened := true, figClosed := false, saved := none,
      log := [], exn := some "RenderError" }
  else if save then
    if env.savefigFails then
      { extent := e, figOpened := true, figClosed := false, saved := none,
        log := [], exn := some "SavefigError" }
    else
      let fn := radarFilename timestamp zoom
      { extent := e, figOpened := true, figClosed := true, saved := some fn,
        log := [s!"Saved image as {fn}"], exn := none }
  else
    { extent := e, figOpened := true, figClosed := true, saved := none,
      log := [], exn := none }

/-- Configuration constant `ZOOM = 7` (line 23). -/
def ZOOM : Nat := 7

/-- Configuration constant `LAT = 15.7` (line 24). -/
def LAT : ℚ := 15.7

/-- Configuration constant `LON = 121.7` (line 24). -/
def LON : ℚ := 121.7

/-- Configuration constant `AUTO_SAVE = True` (line 25). -/
def AUTO_SAVE : Bool := true

/-- Step 1 of the driver: the `requests.get` transport outcome for the
metadata endpoint (left: the exception message) followed by
`get_latest_timestamp`. -/
def fetch_timestamp_step (meta : Except String (Nat × Json)) :
    Except String Int :=
  match meta with
  | .error e => .error e
  | .ok sb => get_latest_timestamp sb.1 sb.2

/-- Observable outcome of one run of the `__main__` block: everything
printed, whether the tile request was issued, whether `plot_tile_on_map` was
invoked, the saved filename, and any exception escaping the process (always
`none`: the catch-all on line 130 swallows every exception). -/
structure RunResult where
  log : List String
  tileFetchAttempted : Bool
  renderInvoked : Bool
  savedFile : Option String
  exn : Option String
deriving Repr, DecidableEq

/-- The `__main__` driver (lines 121-131), parameterised by the transport
outcomes of the two HTTP requests and the render-library behaviour:
fetch the timestamp, fetch the tile, render if an image came back, print
`No image available.` otherwise; any exception is caught and printed as
`Error: {e}`. -/
def main_run (meta : Except String (Nat × Json))
    (tile : Except String HttpResponse) (env : RenderEnv) : RunResult :=
  let log0 := ["Fetching latest radar image..."]
  match fetch_timestamp_step meta with
  | .error e =>
      { log := log0 ++ ["Error: " ++ e], tileFetchAttempted := false,
        renderInvoked := false, savedFile := none, exn := none }
  | .ok timestamp =>
      match tile with
      | .error e =>
          { log := log0 ++ ["Error: " ++ e], tileFetchAttempted := true,
            renderInvoked := false, savedFile := none, exn := none }
      | .ok resp =>
          let fetched := get_radar_tile_by_latlon timestamp ZOOM LAT LON
            6 256 0 0 resp
          match fetched.1 with
          | none =>
              { log := log0 ++ fetched.2 ++ ["No image available."],
                tileFetchAttempted := true, renderInvoked := false,
                savedFile := none, exn := none }
          | some img =>
              let p := plot_tile_on_map env img LAT LON ZOOM timestamp
                AUTO_SAVE
              match p.exn with
              | some e =>
                  { log := log0 ++ fetched.2 ++ p.log ++ ["Error: " ++ e],
                    tileFetchAttempted := true, renderInvoked := true,
                    savedFile := p.saved, exn := none }
              | none =>
                  { log := log0 ++ fetched.2 ++ p.log,
                    tileFetchAttempted := true, renderInvoked := true,
                    savedFile := p.saved, exn := none }

/-- A tile request record (spec §3 `TileRequest`): the parameters that fully
determine the remote tile URL. -/
structure TileRequest where
  timestamp : Int
  zoom : Nat
  lat : ℚ
  lon : ℚ
  color : Nat
  tile_size : Nat
  smooth : Nat
  snow : Nat

/-- The URL a `TileRequest` denotes, via `tileURL`. -/
def TileRequest.url (r : TileRequest) : String :=
  tileURL r.timestamp r.zoom r.lat r.lon r.color r.tile_size r.smooth r.snow

/-- A metadata body of the shape the RainViewer API returns, with a single
past frame at time 1700000000; used as a concrete test input. -/
def goodBody : Json :=
  Json.obj [("radar", Json.obj [("past",
    Json.arr [Json.obj [("time", Json.num 1700000000)]])])]

/-- The extent recorded by `plot_tile_on_map` is `mapExtent` in every branch:
line 55-57 run before any fallible call. -/
theorem plot_extent_eq (env : RenderEnv) (img : RGBAImage) (lat lon : ℚ)
    (zoom : Nat) (timestamp : Int) (save : Bool) :
    (plot_tile_on_map env img lat lon zoom timestamp save).extent =
      mapExtent lat lon zoom := by
  unfold plot_tile_on_map
  split_ifs <;> rfl

/-- `pyFloatStr` renders the configured latitude 15.7 as Python does. -/
theorem pyFloatStr_LAT : pyFloatStr LAT = "15.7" := by
  have hn : LAT.num = 157 := by norm_num [LAT]
  have hd : LAT.den = 10 := by norm_num [LAT]
  simp [pyFloatStr, hn, hd]
  rfl

/-- `pyFloatStr` renders the configured longitude 121.7 as Python does. -/
theorem pyFloatStr_LON : pyFloatStr LON = "121.7" := by
  have hn : LON.num = 1217 := by norm_num [LON]
  have hd : LON.den = 10 := by norm_num [LON]
  simp [pyFloatStr, hn, hd]
  rfl

/-- C1: `get_radar_tile_by_latlon` returns a decoded RGBA bitmap if and only
if the HTTP status is exactly 200 and the Content-Type header starts with
image; in every other case it returns `none` without raising, after printing
the URL line and a line reporting the status. -/
theorem tile_fetch_status_iff (timestamp : Int) (zoom : Nat) (lat lon : ℚ)
    (color tile_size smooth snow : Nat) (r : HttpResponse) :
    ((get_radar_tile_by_latlon timestamp zoom lat lon color tile_size smooth
        snow r).1.isSome = true ↔
      r.status_code = 200 ∧
        (r.content_type.getD "").startsWith "image" = true)
    ∧ ((get_radar_tile_by_latlon timestamp zoom lat lon color tile_size smooth
        snow r).1 = none →
      (get_radar_tile_by_latlon timestamp zoom lat lon color tile_size smooth
        snow r).2 =
        ["Fetching: " ++
            tileURL timestamp zoom lat lon color tile_size smooth snow,
          "Failed to load tile. Status: " ++ toString r.status_code]) := by
  unfold get_radar_tile_by_latlon
  by_cases h : (r.status_code == 200 &&
      (r.content_type.getD "").startsWith "image") = true
  · simp only [h, if_pos]
    simp only [Bool.and_eq_true, beq_iff_eq] at h
    simp [h, toString, String.append_empty]
  · simp only [h, if_neg, Bool.not_eq_true]
    simp only [Bool.and_eq_true, beq_iff_eq] at h
    simp [h, toString, String.append_empty]

/-- C1 witness: a 404 text/html response yields `none` and the two printed
lines, by `tile_fetch_status_iff` at that concrete response. -/
theorem tile_fetch_status_iff_witness :
    (get_radar_tile_by_latlon 1700000000 7 LAT LON 6 256 0 0
        ⟨404, some "text/html", []⟩).1 = none ∧
    (get_radar_tile_by_latlon 1700000000 7 LAT LON 6 256 0 0
        ⟨404, some "text/html", []⟩).2 =
      ["Fetching: " ++ tileURL 1700000000 7 LAT LON 6 256 0 0,
        "Failed to load tile. Status: " ++ toString (404 : Nat)] :=
  ⟨by rfl,
    (tile_fetch_status_iff 1700000000 7 LAT LON 6 256 0 0
      ⟨404, some "text/html", []⟩).2 (by rfl)⟩

/-- C2: whenever the timestamp-fetch step raises (for example the metadata
endpoint returns HTTP 500), the driver prints exactly one `Error: {message}`
line containing the cause, never issues the tile request, never invokes the
renderer, and terminates normally with no escaping exception. -/
theorem driver_timestamp_error (meta : Except String (Nat × Json))
    (tile : Except String HttpResponse) (env : RenderEnv) (e : String)
    (h : fetch_timestamp_step meta = .error e) :
    main_run meta tile env =
      { log := ["Fetching latest radar image...", "Error: " ++ e],
        tileFetchAttempted := false, renderInvoked := false,
        savedFile := none, exn := none } := by
  simp [main_run, h]

/-- C2 witness: an HTTP 500 metadata response makes the timestamp step raise
HTTPError: 500, and `driver_timestamp_error` applies to that run. -/
theorem driver_timestamp_error_witness :
    fetch_timestamp_step (.ok (500, Json.null)) = .error "HTTPError: 500" ∧
    main_run (.ok (500, Json.null)) (.error "unreached") ⟨false, false⟩ =
      { log := ["Fetching latest radar image...", "Error: HTTPError: 500"],
        tileFetchAttempted := false, renderInvoked := false,
        savedFile := none, exn := none } :=
  ⟨by rfl,
    driver_timestamp_error (.ok (500, Json.null)) (.error "unreached")
      ⟨false, false⟩ "HTTPError: 500" (by rfl)⟩

/-- C3: whenever the tile fetch returns `none` (for example a 404 from the
tile endpoint), the driver prints `No image available.` and terminates
normally, and the renderer is never invoked in that run. -/
theorem driver_no_image (meta : Except String (Nat × Json))
    (resp : HttpResponse) (env : RenderEnv) (ts : Int)
    (hts : fetch_timestamp_step meta = .ok ts)
    (hnone : (get_radar_tile_by_latlon ts ZOOM LAT LON 6 256 0 0 resp).1 =
      none) :
    main_run meta (.ok resp) env =
      { log := ["Fetching latest radar image..."] ++
          (get_radar_tile_by_latlon ts ZOOM LAT LON 6 256 0 0 resp).2 ++
          ["No image available."],
        tileFetchAttempted := true, renderInvoked := false,
        savedFile := none, exn := none } := by
  simp [main_run, hts, hnone]

/-- C3 witness: a good metadata body followed by a 404 tile response, by
`driver_no_image` at those concrete inputs. -/
theorem driver_no_image_witness :
    fetch_timestamp_step (.ok (200, goodBody)) = .ok 1700000000 ∧
    (get_radar_tile_by_latlon 1700000000 ZOOM LAT LON 6 256 0 0
        ⟨404, some "text/html", []⟩).1 = none ∧
    main_run (.ok (200, goodBody)) (.ok ⟨404, some "text/html", []⟩)
        ⟨false, false⟩ =
      { log := ["Fetching latest radar image..."] ++
          (get_radar_tile_by_latlon 1700000000 ZOOM LAT LON 6 256 0 0
            ⟨404, some "text/html", []⟩).2 ++
          ["No image available."],
        tileFetchAttempted := true, renderInvoked := false,
        savedFile := none, exn := none } :=
  ⟨by rfl, by rfl,
    driver_no_image (.ok (200, goodBody)) ⟨404, some "text/html", []⟩
      ⟨false, false⟩ 1700000000 (by rfl) (by rfl)⟩

/-- C4: for every zoom in [2,9] and every lat, lon, the extent computed by
`plot_tile_on_map` has delta = 360 / 2 ^ zoom strictly positive, satisfies
lon_min < lon < lon_max and lat_min < lat < lat_max, and is centered on the
configured point: each bound is exactly delta / 2 away from the center. -/
theorem extent_centered_and_bounded (env : RenderEnv) (img : RGBAImage)
    (lat lon : ℚ) (zoom : Nat) (timestamp : Int) (save : Bool)
    (h2 : 2 ≤ zoom) (h9 : zoom ≤ 9) :
    0 < tileDelta zoom ∧
    (plot_tile_on_map env img lat lon zoom timestamp save).extent.lon_min <
      lon ∧
    lon < (plot_tile_on_map env img lat lon zoom timestamp save).extent.lon_max ∧
    (plot_tile_on_map env img lat lon zoom timestamp save).extent.lat_min <
      lat ∧
    lat < (plot_tile_on_map env img lat lon zoom timestamp save).extent.lat_max ∧
    lon - (plot_tile_on_map env img lat lon zoom timestamp save).extent.lon_min =
      tileDelta zoom / 2 ∧
    (plot_tile_on_map env img lat lon zoom timestamp save).extent.lon_max - lon =
      tileDelta zoom / 2 ∧
    lat - (plot_tile_on_map env img lat lon zoom timestamp save).extent.lat_min =
      tileDelta zoom / 2 ∧
    (plot_tile_on_map env img lat lon zoom timestamp save).extent.lat_max - lat =
      tileDelta zoom / 2 := by
  have hd : 0 < tileDelta zoom := by
    unfold tileDelta
    positivity
  rw [plot_extent_eq]
  unfold mapExtent
  refine ⟨hd, ?_, ?_, ?_, ?_, ?_, ?_, ?_, ?_⟩ <;> simp <;> linarith

/-- C4 witness: the configured run (zoom 7, lat 15.7, lon 121.7), by
`extent_centered_and_bounded` at those concrete inputs. -/
theorem extent_centered_and_bounded_witness :
    (2 ≤ 7 ∧ 7 ≤ 9) ∧
    (0 < tileDelta 7 ∧
      (plot_tile_on_map ⟨false, false⟩ ⟨[]⟩ LAT LON 7 1700000000
        true).extent.lon_min < LON ∧
      LON < (plot_tile_on_map ⟨false, false⟩ ⟨[]⟩ LAT LON 7 1700000000
        true).extent.lon_max ∧
      (plot_tile_on_map ⟨false, false⟩ ⟨[]⟩ LAT LON 7 1700000000
        true).extent.lat_min < LAT ∧
      LAT < (plot_tile_on_map ⟨false, false⟩ ⟨[]⟩ LAT LON 7 1700000000
        true).extent.lat_max ∧
      LON - (plot_tile_on_map ⟨false, false⟩ ⟨[]⟩ LAT LON 7 1700000000
        true).extent.lon_min = tileDelta 7 / 2 ∧
      (plot_tile_on_map ⟨false, false⟩ ⟨[]⟩ LAT LON 7 1700000000
        true).extent.lon_max - LON = tileDelta 7 / 2 ∧
      LAT - (plot_tile_on_map ⟨false, false⟩ ⟨[]⟩ LAT LON 7 1700000000
        true).extent.lat_min = tileDelta 7 / 2 ∧
      (plot_tile_on_map ⟨false, false⟩ ⟨[]⟩ LAT LON 7 1700000000
        true).extent.lat_max - LAT = tileDelta 7 / 2) :=
  ⟨⟨by decide, by decide⟩,
    extent_centered_and_bounded ⟨false, false⟩ ⟨[]⟩ LAT LON 7 1700000000 true
      (by decide) (by decide)⟩

/-- C5: for the fixed inputs lat = 15.7, lon = 121.7, zoom = 7, the extent
computation yields delta = 360 / 128 = 2.8125, lon_min = 120.29375,
lon_max = 123.10625, lat_min = 14.29375, lat_max = 17.10625, exactly, as
rational arithmetic. -/
theorem extent_concrete_values :
    tileDelta 7 = 2.8125 ∧
    mapExtent LAT LON 7 =
      { lon_min := 120.29375, lon_max := 123.10625,
        lat_min := 14.29375, lat_max := 17.10625 } := by
  constructor
  · norm_num [tileDelta]
  · norm_num [mapExtent, tileDelta, LAT, LON, MapExtent.mk.injEq]

/-- C6: for timestamp 1700000000 and zoom 7, the output filename is exactly
radar_20231114_2213_z7.png (UTC conversion to YYYYMMDD_HHMM, seconds
truncated, suffixed with _z and the zoom), and a successful saving run of
`plot_tile_on_map` records exactly that file. -/
theorem filename_for_1700000000 :
    radarFilename 1700000000 7 = "radar_20231114_2213_z7.png" ∧
    (plot_tile_on_map ⟨false, false⟩ ⟨[]⟩ LAT LON 7 1700000000 true).saved =
      some "radar_20231114_2213_z7.png" :=
  ⟨by rfl, by rfl⟩

/-- C7: on a successful HTTP response, `get_latest_timestamp` returns exactly
the time field of the last element of the radar.past array; if radar.past is
missing or empty it raises (a key/index lookup failure) rather than
returning a value. -/
theorem latest_timestamp_spec (st : Nat) (body : Json) (hst : st < 400) :
    (∀ radar items last t,
        body.getKey "radar" = .ok radar →
        radar.getKey "past" = .ok (Json.arr items) →
        items.getLast? = some last →
        last.getKey "time" = .ok (Json.num t) →
        get_latest_timestamp st body = .ok t)
    ∧ (∀ radar,
        body.getKey "radar" = .ok radar →
        radar.getKey "past" = .ok (Json.arr []) →
        ∃ e, get_latest_timestamp st body = .error e)
    ∧ (∀ radar e,
        body.getKey "radar" = .ok radar →
        radar.getKey "past" = .error e →
        ∃ e2, get_latest_timestamp st body = .error e2)
    ∧ (∀ e, body.getKey "radar" = .error e →
        ∃ e2, get_latest_timestamp st body = .error e2) := by
  have hrs : raise_for_status st = .ok () := by
    unfold raise_for_status
    rw [if_neg]
    omega
  refine ⟨?_, ?_, ?_, ?_⟩
  · intro radar items last t h1 h2 h3 h4
    simp [get_latest_timestamp, hrs, h1, h2, Json.getLast, h3, h4]
  · intro radar h1 h2
    exact ⟨"IndexError: list index out of range",
      by simp [get_latest_timestamp, hrs, h1, h2, Json.getLast]⟩
  · intro radar e h1 h2
    exact ⟨e, by simp [get_latest_timestamp, hrs, h1, h2]⟩
  · intro e h1
    exact ⟨e, by simp [get_latest_timestamp, hrs, h1]⟩

/-- C7 witness: a 200 response with one past frame at 1700000000, by the
success conjunct of `latest_timestamp_spec` at that concrete body. -/
theorem latest_timestamp_spec_witness :
    (200 : Nat) < 400 ∧ get_latest_timestamp 200 goodBody = .ok 1700000000 :=
  ⟨by decide,
    (latest_timestamp_spec 200 goodBody (by decide)).1
      (Json.obj [("past",
        Json.arr [Json.obj [("time", Json.num 1700000000)]])])
      [Json.obj [("time", Json.num 1700000000)]]
      (Json.obj [("time", Json.num 1700000000)]) 1700000000
      (by rfl) (by rfl) (by rfl) (by rfl)⟩

/-- C8: the tile URL is a deterministic pure function of the request
parameters: two requests with equal components produce the identical string,
which follows the documented template
https://tilecache.rainviewer.com/v2/radar/ timestamp / tile_size / zoom /
lat / lon / color / smooth _ snow .png with no hidden state. -/
theorem tile_url_deterministic (r1 r2 : TileRequest)
    (h : r1.timestamp = r2.timestamp ∧ r1.zoom = r2.zoom ∧ r1.lat = r2.lat ∧
      r1.lon = r2.lon ∧ r1.color = r2.color ∧ r1.tile_size = r2.tile_size ∧
      r1.smooth = r2.smooth ∧ r1.snow = r2.snow) :
    r1.url = r2.url ∧
    r1.url = "https://tilecache.rainviewer.com/v2/radar/" ++
      toString r1.timestamp ++ "/" ++ toString r1.tile_size ++ "/" ++
      toString r1.zoom ++ "/" ++ pyFloatStr r1.lat ++ "/" ++
      pyFloatStr r1.lon ++ "/" ++ toString r1.color ++ "/" ++
      toString r1.smooth ++ "_" ++ toString r1.snow ++ ".png" := by
  obtain ⟨h1, h2, h3, h4, h5, h6, h7, h8⟩ := h
  constructor
  · unfold TileRequest.url
    rw [h1, h2, h3, h4, h5, h6, h7, h8]
  · unfold TileRequest.url tileURL
    simp [toString, String.append_assoc, String.append_empty]

/-- C8 witness: the configured request, by `tile_url_deterministic`, and the
fully evaluated URL string it denotes. -/
theorem tile_url_deterministic_witness :
    TileRequest.url ⟨1700000000, 7, LAT, LON, 6, 256, 0, 0⟩ =
      TileRequest.url ⟨1700000000, 7, LAT, LON, 6, 256, 0, 0⟩ ∧
    TileRequest.url ⟨1700000000, 7, LAT, LON, 6, 256, 0, 0⟩ =
      "https://tilecache.rainviewer.com/v2/radar/1700000000/256/7/15.7/121.7/6/0_0.png" :=
  ⟨(tile_url_deterministic ⟨1700000000, 7, LAT, LON, 6, 256, 0, 0⟩
      ⟨1700000000, 7, LAT, LON, 6, 256, 0, 0⟩
      ⟨rfl, rfl, rfl, rfl, rfl, rfl, rfl, rfl⟩).1,
    by
      unfold TileRequest.url tileURL
      rw [pyFloatStr_LAT, pyFloatStr_LON]
      rfl⟩

/-- C9 counterexample: when `plt.savefig` raises, `plot_tile_on_map` has
created a figure, propagates the exception, and never reaches the
`plt.close(fig)` on line 115 — the figure is not released on that exit
path, refuting guaranteed release on every exit path. -/
theorem figure_not_closed_on_savefig_error :
    (plot_tile_on_map ⟨false, true⟩ ⟨[]⟩ LAT LON 7 1700000000
      true).figOpened = true ∧
    (plot_tile_on_map ⟨false, true⟩ ⟨[]⟩ LAT LON 7 1700000000 true).exn =
      some "SavefigError" ∧
    (plot_tile_on_map ⟨false, true⟩ ⟨[]⟩ LAT LON 7 1700000000
      true).figClosed = false :=
  ⟨by rfl, by rfl, by rfl⟩

/-- C9 (amended): on every invocation of `plot_tile_on_map` that completes
without an exception, the created figure is closed before returning; when a
drawing or saving call raises, the close on line 115 is skipped. -/
theorem figure_closed_on_normal_exit (env : RenderEnv) (img : RGBAImage)
    (lat lon : ℚ) (zoom : Nat) (timestamp : Int) (save : Bool)
    (h : (plot_tile_on_map env img lat lon zoom timestamp save).exn = none) :
    (plot_tile_on_map env img lat lon zoom timestamp save).figClosed =
      true := by
  unfold plot_tile_on_map at h ⊢
  split_ifs at h ⊢ <;> simp_all

/-- C9 witness: a fully successful saving run closes its figure, by
`figure_closed_on_normal_exit` at that concrete run. -/
theorem figure_closed_on_normal_exit_witness :
    (plot_tile_on_map ⟨false, false⟩ ⟨[]⟩ LAT LON 7 1700000000 true).exn =
      none ∧
    (plot_tile_on_map ⟨false, false⟩ ⟨[]⟩ LAT LON 7 1700000000
      true).figClosed = true :=
  ⟨by rfl,
    figure_closed_on_normal_exit ⟨false, false⟩ ⟨[]⟩ LAT LON 7 1700000000
      true (by rfl)⟩

/-- C10: the output filename encodes the timestamp only to minute precision:
any two timestamps in the same UTC calendar minute yield, for the same zoom,
the identical filename — so a later run in that minute writes to the same
file, overwriting the earlier one. -/
theorem filename_minute_collision (t1 t2 : Int) (zoom : Nat)
    (hy : (utcfromtimestamp t1).year = (utcfromtimestamp t2).year)
    (hmo : (utcfromtimestamp t1).month = (utcfromtimestamp t2).month)
    (hd : (utcfromtimestamp t1).day = (utcfromtimestamp t2).day)
    (hh : (utcfromtimestamp t1).hour = (utcfromtimestamp t2).hour)
    (hmi : (utcfromtimestamp t1).minute = (utcfromtimestamp t2).minute) :
    radarFilename t1 zoom = radarFilename t2 zoom := by
  unfold radarFilename strftimeYmdHM
  rw [hy, hmo, hd, hh, hmi]

/-- C10 witness: 1700000000 and 1700000010 are distinct but lie in the same
UTC minute and get the same filename, by `filename_minute_collision`. -/
theorem filename_minute_collision_witness :
    (utcfromtimestamp 1700000000).year = (utcfromtimestamp 1700000010).year ∧
    (utcfromtimestamp 1700000000).minute =
      (utcfromtimestamp 1700000010).minute ∧
    (1700000000 : Int) ≠ 1700000010 ∧
    radarFilename 1700000000 7 = radarFilename 1700000010 7 :=
  ⟨by rfl, by rfl, by decide,
    filename_minute_collision 1700000000 1700000010 7 (by rfl) (by rfl)
      (by rfl) (by rfl) (by rfl)⟩
